import Mathlib

/-!
Verification of the Silverscreen receiving-quality core (src/app.py).

The relational store (Neon PostgreSQL accessed through SQLAlchemy) is
modelled as an explicit `DB` value holding the five tables created by
`init_db`, together with the next identity value of each table and a
server clock for `date_entered` defaults.  Calendar dates and timestamps
are modelled as `Nat`; SQL `INTEGER` columns are `Int`; nullable columns
are `Option`; error rates computed by the analytics section are exact
rationals (`ℚ`).  A fallible call returns `Except`; returning `.error`
models an exception raised inside `with eng.begin()`, whose transaction
is rolled back, so the caller keeps the unchanged `DB`.
-/

/-- Model of Python `str.strip()`: drop whitespace from both ends.
Written over the character list so that it evaluates in the kernel. -/
def pyStrip (s : String) : String :=
  ⟨((s.data.dropWhile Char.isWhitespace).reverse.dropWhile Char.isWhitespace).reverse⟩

/-- Row of `receiving_customers` (id IDENTITY, customer_name UNIQUE NOT NULL). -/
structure CustomerRow where
  id : Nat
  customer_name : String
deriving DecidableEq, Repr

/-- Row of `receiving_employees` (id IDENTITY, employee_name UNIQUE NOT NULL). -/
structure EmployeeRow where
  id : Nat
  employee_name : String
deriving DecidableEq, Repr

/-- Row of `receiving_daily_actuals`. -/
structure ActualRow where
  id : Nat
  receiving_date : Nat
  orders_received : Int
  estimated_units : Int
  author_name : String
  notes : Option String
  date_entered : Nat
  active : Int
deriving DecidableEq, Repr

/-- Row of `receiving_problem_tags`. -/
structure TagRow where
  id : Nat
  date_found : Nat
  po_number : String
  customer_id : Nat
  job_name : String
  team_name : String
  author_name : String
  problem_type : String
  mistake_employee_id : Option Nat
  notes : String
  date_entered : Nat
  active : Int
deriving DecidableEq, Repr

/-- Row of `receiving_problem_lines`.  `style_number`, `item_description`,
`color` and `size` are NOT NULL in the schema, the remaining line columns
are nullable. -/
structure LineRow where
  id : Nat
  tag_id : Nat
  short_heavy_tag : Option String
  style_number : String
  item_description : String
  color : String
  size : String
  vendor_packing_slip_matches : Option Int
  qty_short : Option Int
  qty_heavy : Option Int
deriving DecidableEq, Repr

/-- A line dict as passed to `save_problem_tag` (`ln.get(...)` yields
`None` for absent keys, hence every field is optional here). -/
structure LineDict where
  short_heavy_tag : Option String
  style_number : Option String
  item_description : Option String
  color : Option String
  size : Option String
  vendor_packing_slip_matches : Option Int
  qty_short : Option Int
  qty_heavy : Option Int
deriving DecidableEq, Repr

/-- The keyword arguments of `save_problem_tag`. -/
structure HeaderParams where
  date_found : Nat
  po_number : String
  customer_id : Nat
  job_name : String
  team_name : String
  author_name : String
  problem_type : String
  mistake_employee_id : Option Nat
  notes : String
deriving DecidableEq, Repr

/-- The header dict built by `main` before validation; the three fields
inspected by `validate_submission` can still be missing (`None`). -/
structure SubmitHeader where
  date_found : Option Nat
  po_number : String
  customer_id : Option Nat
  job_name : String
  team_name : String
  author_name : String
  problem_type : Option String
  mistake_employee_id : Option Nat
  notes : String
deriving DecidableEq, Repr

/-- The database: the five tables created by `init_db`, the next IDENTITY
value of each table, and the server clock used for `date_entered`. -/
structure DB where
  customers : List CustomerRow
  employees : List EmployeeRow
  daily_actuals : List ActualRow
  problem_tags : List TagRow
  problem_lines : List LineRow
  next_customer_id : Nat
  next_employee_id : Nat
  next_actual_id : Nat
  next_tag_id : Nat
  next_line_id : Nat
  clock : Nat
deriving DecidableEq, Repr

/-- Storage-level failures (surfaced as SQLAlchemy exceptions). -/
inductive DBErr where
  | notNull
  | fkViolation
deriving DecidableEq, Repr

/-- Failures of the submission flow in `main`: the validation branch
shows the collected messages, otherwise a storage error propagates. -/
inductive SubmitErr where
  | validation (errors : List String)
  | db (e : DBErr)
deriving DecidableEq, Repr

/-- Model of `add_customer_if_needed`: strips the name, raises `ValueError` on an
empty result, otherwise upserts.  The `ON CONFLICT (customer_name) DO
UPDATE SET customer_name = EXCLUDED.customer_name RETURNING id` rewrites
the existing row with its own name, so the conflict branch is modelled
as returning the existing id with the table unchanged. -/
def add_customer_if_needed (db : DB) (name : String) : Except String (DB × Nat) :=
  let name := pyStrip name
  if name = "" then .error ("Customer name cannot be empty.")
  else
    match db.customers.find? fun c => decide (c.customer_name = name) with
    | some c => .ok (db, c.id)
    | none =>
      .ok ({ db with
              customers := db.customers ++ [{ id := db.next_customer_id, customer_name := name }],
              next_customer_id := db.next_customer_id + 1 },
           db.next_customer_id)

/-- Model of `add_employee`: same upsert shape as `add_customer_if_needed`. -/
def add_employee (db : DB) (name : String) : Except String (DB × Nat) :=
  let name := pyStrip name
  if name = "" then .error ("Employee name cannot be empty.")
  else
    match db.employees.find? fun c => decide (c.employee_name = name) with
    | some c => .ok (db, c.id)
    | none =>
      .ok ({ db with
              employees := db.employees ++ [{ id := db.next_employee_id, employee_name := name }],
              next_employee_id := db.next_employee_id + 1 },
           db.next_employee_id)

/-- Sort key of `ORDER BY receiving_date` in `fetch_daily_actuals`. -/
def actualOrder (a b : ActualRow) : Prop := a.receiving_date ≤ b.receiving_date

instance : DecidableRel actualOrder := fun a b => by unfold actualOrder; infer_instance

/-- Model of `fetch_daily_actuals`: `WHERE receiving_date BETWEEN :s AND :e ORDER
BY receiving_date`.  No condition on `active`. -/
def fetch_daily_actuals (db : DB) (s e : Nat) : List ActualRow :=
  (db.daily_actuals.filter fun a =>
    decide (s ≤ a.receiving_date) && decide (a.receiving_date ≤ e)).insertionSort actualOrder

/-- The FK checks of the header insert in `save_problem_tag`
(`customer_id` NOT NULL REFERENCES customers, `mistake_employee_id`
nullable REFERENCES employees). -/
def fkOkHeader (db : DB) (p : HeaderParams) : Bool :=
  (db.customers.any fun c => decide (c.id = p.customer_id)) &&
  (match p.mistake_employee_id with
   | none => true
   | some m => db.employees.any fun emp => decide (emp.id = m))

/-- The header row written by the INSERT in `save_problem_tag`:
`date_entered` defaults to the server clock, `active` defaults to 1. -/
def mkTagRow (db : DB) (p : HeaderParams) : TagRow :=
  { id := db.next_tag_id
    date_found := p.date_found
    po_number := p.po_number
    customer_id := p.customer_id
    job_name := p.job_name
    team_name := p.team_name
    author_name := p.author_name
    problem_type := p.problem_type
    mistake_employee_id := p.mistake_employee_id
    notes := p.notes
    date_entered := db.clock
    active := 1 }

/-- Header INSERT with RETURNING id; fails on a broken foreign key. -/
def insertTag (db : DB) (p : HeaderParams) : Except DBErr (DB × Nat) :=
  if fkOkHeader db p then
    .ok ({ db with
            problem_tags := db.problem_tags ++ [mkTagRow db p],
            next_tag_id := db.next_tag_id + 1 },
         db.next_tag_id)
  else .error .fkViolation

/-- The line row a line dict produces, provided every NOT NULL column of
`receiving_problem_lines` received a value. -/
def lineRowOf (db : DB) (tagId : Nat) (ln : LineDict) : Option LineRow :=
  match ln.style_number, ln.item_description, ln.color, ln.size with
  | some sn, some idesc, some col, some sz =>
    some { id := db.next_line_id
           tag_id := tagId
           short_heavy_tag := ln.short_heavy_tag
           style_number := sn
           item_description := idesc
           color := col
           size := sz
           vendor_packing_slip_matches := ln.vendor_packing_slip_matches
           qty_short := ln.qty_short
           qty_heavy := ln.qty_heavy }
  | _, _, _, _ => none

/-- One line INSERT: fails on a NULL in a NOT NULL column or a broken
`tag_id` foreign key. -/
def insertLine (db : DB) (tagId : Nat) (ln : LineDict) : Except DBErr DB :=
  if db.problem_tags.any fun t => decide (t.id = tagId) then
    match lineRowOf db tagId ln with
    | some row =>
      .ok { db with
            problem_lines := db.problem_lines ++ [row],
            next_line_id := db.next_line_id + 1 }
    | none => .error .notNull
  else .error .fkViolation

/-- The `for ln in lines:` loop of `save_problem_tag`. -/
def insertLines (tagId : Nat) : DB → List LineDict → Except DBErr DB
  | db, [] => .ok db
  | db, ln :: rest =>
    match insertLine db tagId ln with
    | .error e => .error e
    | .ok db1 => insertLines tagId db1 rest

/-- Model of `save_problem_tag`: header INSERT returning the generated id, then
every line INSERT referencing it, inside one `eng.begin()` transaction.
An `.error` result means the transaction rolled back: the caller keeps
the original `DB`. -/
def save_problem_tag (db : DB) (p : HeaderParams) (lines : List LineDict) :
    Except DBErr (DB × Nat) :=
  match insertTag db p with
  | .error e => .error e
  | .ok (db1, tag_id) =>
    match insertLines tag_id db1 lines with
    | .error e => .error e
    | .ok db2 => .ok (db2, tag_id)

/-- The database state visible to readers after a `save_problem_tag`
call: the committed state on success, the original state after the
rollback on failure. -/
def save_problem_tag_state (db : DB) (p : HeaderParams) (lines : List LineDict) : DB :=
  match save_problem_tag db p lines with
  | .ok (db2, _) => db2
  | .error _ => db

/-- Python truthiness of the optional integer `header.get("customer_id")`:
`None` and `0` are falsy. -/
def truthyNat : Option Nat → Bool
  | none => false
  | some n => decide (n ≠ 0)

/-- Python truthiness of the optional string `header.get("problem_type")`:
`None` and the empty string are falsy. -/
def truthyStr : Option String → Bool
  | none => false
  | some s => decide (s ≠ "")

/-- Model of `validate_submission`: appends one message per failed check and
returns the whole list.  It requires only `date_found` (a date object is
always truthy, so only `None` fails), `customer_id`, `problem_type` and
`total_pieces_with_error > 0`; it receives no line data. -/
def validate_submission (header : SubmitHeader) (total_pieces_with_error : Option Int) :
    List String :=
  (if header.date_found.isSome then [] else ["Date Found is required."]) ++
  (if truthyNat header.customer_id then [] else ["Customer is required."]) ++
  (if truthyStr header.problem_type then [] else ["Problem Type is required."]) ++
  (match total_pieces_with_error with
   | none => ["Total pieces with this problem must be greater than 0."]
   | some t =>
     if t ≤ 0 then ["Total pieces with this problem must be greater than 0."] else [])

/-- Conversion of the validated header dict to the keyword arguments of
`save_problem_tag`; only reached once validation has established that
the three optional fields are present. -/
def headerParamsOf (h : SubmitHeader) : HeaderParams :=
  { date_found := h.date_found.getD 0
    po_number := h.po_number
    customer_id := h.customer_id.getD 0
    job_name := h.job_name
    team_name := h.team_name
    author_name := h.author_name
    problem_type := (h.problem_type.getD "")
    mistake_employee_id := h.mistake_employee_id
    notes := h.notes }

/-- The submit-button handler in `main`: run `validate_submission`; on
any error show the messages and write nothing, otherwise call
`save_problem_tag` with the given lines payload. -/
def submit_problem_tag (db : DB) (header : SubmitHeader) (total_pieces_with_error : Option Int)
    (lines : List LineDict) : Except SubmitErr (DB × Nat) :=
  let errs := validate_submission header total_pieces_with_error
  if errs.isEmpty then
    match save_problem_tag db (headerParamsOf header) lines with
    | .ok r => .ok r
    | .error e => .error (.db e)
  else .error (.validation errs)

/-- Sort key of `ORDER BY t.date_found, t.id` on the header side of the
analytics query. -/
def tagOrder (a b : TagRow) : Prop :=
  a.date_found < b.date_found ∨ (a.date_found = b.date_found ∧ a.id ≤ b.id)

instance : DecidableRel tagOrder := fun a b => by unfold tagOrder; infer_instance

/-- Sort key of the trailing `l.id` in the same ORDER BY. -/
def lineOrder (a b : LineRow) : Prop := a.id ≤ b.id

instance : DecidableRel lineOrder := fun a b => by unfold lineOrder; infer_instance

/-- One row of the wide dataframe built by `fetch_problem_tags_and_lines`.
The line columns are optional because the LEFT JOIN yields NULLs for a
tag without lines. -/
structure JoinedRow where
  tag_id : Nat
  date_found : Nat
  po_number : String
  job_name : String
  team_name : String
  author_name : String
  problem_type : String
  notes : String
  date_entered : Nat
  customer_name : String
  mistake_made_by : Option String
  line_id : Option Nat
  short_heavy_tag : Option String
  style_number : Option String
  item_description : Option String
  color : Option String
  size : Option String
  vendor_packing_slip_matches : Option Int
  qty_short : Option Int
  qty_heavy : Option Int
deriving DecidableEq, Repr

/-- The WHERE clause on headers: date range, `t.active = 1`, then the two
dynamically appended filters.  `if team_filter and team_filter != "-- All --"`
skips the team condition for `None`, the empty string and the sentinel. -/
def tagKeep (s e : Nat) (team_filter : Option String) (customer_id : Option Nat)
    (t : TagRow) : Bool :=
  decide (s ≤ t.date_found) && decide (t.date_found ≤ e) && decide (t.active = 1) &&
  (match team_filter with
   | none => true
   | some tf =>
     if tf = "" then true
     else if tf = "-- All --" then true
     else decide (t.team_name = tf)) &&
  (match customer_id with
   | none => true
   | some cid => decide (t.customer_id = cid))

/-- The SELECT list of `fetch_problem_tags_and_lines` for a line row. -/
def joinedOfLine (t : TagRow) (cname : String) (ename : Option String) (l : LineRow) :
    JoinedRow :=
  { tag_id := t.id
    date_found := t.date_found
    po_number := t.po_number
    job_name := t.job_name
    team_name := t.team_name
    author_name := t.author_name
    problem_type := t.problem_type
    notes := t.notes
    date_entered := t.date_entered
    customer_name := cname
    mistake_made_by := ename
    line_id := some l.id
    short_heavy_tag := l.short_heavy_tag
    style_number := some l.style_number
    item_description := some l.item_description
    color := some l.color
    size := some l.size
    vendor_packing_slip_matches := l.vendor_packing_slip_matches
    qty_short := l.qty_short
    qty_heavy := l.qty_heavy }

/-- The LEFT JOIN row for a tag without line rows: every line column NULL. -/
def joinedNullLine (t : TagRow) (cname : String) (ename : Option String) : JoinedRow :=
  { tag_id := t.id
    date_found := t.date_found
    po_number := t.po_number
    job_name := t.job_name
    team_name := t.team_name
    author_name := t.author_name
    problem_type := t.problem_type
    notes := t.notes
    date_entered := t.date_entered
    customer_name := cname
    mistake_made_by := ename
    line_id := none
    short_heavy_tag := none
    style_number := none
    item_description := none
    color := none
    size := none
    vendor_packing_slip_matches := none
    qty_short := none
    qty_heavy := none }

/-- The join for one header row: INNER JOIN to customers (a tag whose
customer id resolves to no row yields nothing), LEFT JOIN to employees
(`mistake_made_by` is NULL when the id is NULL or unresolved), LEFT JOIN
to its lines in `l.id` order. -/
def rowsForTag (db : DB) (t : TagRow) : List JoinedRow :=
  match db.customers.find? fun c => decide (c.id = t.customer_id) with
  | none => []
  | some c =>
    let ename : Option String := t.mistake_employee_id.bind fun m =>
      (db.employees.find? fun emp => decide (emp.id = m)).map EmployeeRow.employee_name
    let ls := (db.problem_lines.filter fun l => decide (l.tag_id = t.id)).insertionSort lineOrder
    if ls.isEmpty then [joinedNullLine t c.customer_name ename]
    else ls.map (joinedOfLine t c.customer_name ename)

/-- Model of `fetch_problem_tags_and_lines`: filter headers, order by
`t.date_found, t.id, l.id` (equivalently: sort the headers by
`(date_found, id)` and expand each into its line rows in `l.id` order),
and join the names in.  Only `t.active = 1` headers survive; lines carry
no active column. -/
def fetch_problem_tags_and_lines (db : DB) (s e : Nat) (team_filter : Option String)
    (customer_id : Option Nat) : List JoinedRow :=
  ((db.problem_tags.filter (tagKeep s e team_filter customer_id)).insertionSort
    tagOrder).flatMap (rowsForTag db)

/-- The `error_units` column of one joined row:
`problems_df[["qty_short","qty_heavy"]].fillna(0).sum(axis=1)`. -/
def error_units_of (r : JoinedRow) : Int := r.qty_short.getD 0 + r.qty_heavy.getD 0

/-- One accumulation step of the groupby-sum on `receiving_date`. -/
def addToGroup (acc : List (Nat × Int)) (d : Nat) (v : Int) : List (Nat × Int) :=
  match acc with
  | [] => [(d, v)]
  | (k, ssum) :: rest =>
    if k = d then (k, ssum + v) :: rest else (k, ssum) :: addToGroup rest d v

/-- The `daily_units` frame: `daily_df.groupby("receiving_date")["estimated_units"].sum()`,
renamed to `(date_found, total_units)` pairs.  An empty input yields the
empty frame of the other branch. -/
def daily_units (actuals : List ActualRow) : List (Nat × Int) :=
  actuals.foldl (fun acc a => addToGroup acc a.receiving_date a.estimated_units) []

/-- The `merge(daily_units, on="date_found", how="left")` followed by
`fillna(0)`: the total for a date, 0 when the date has no baseline row. -/
def lookupTotal (du : List (Nat × Int)) (d : Nat) : Int :=
  match du.find? fun p => decide (p.1 = d) with
  | some p => p.2
  | none => 0

/-- The zero-denominator policy applied to both `tag_level` and
`cust_agg`: `error_units / total_units` if `total_units > 0` else `0.0`. -/
def rateOf (eu tu : Int) : ℚ := if 0 < tu then (eu : ℚ) / (tu : ℚ) else 0

/-- One row of the `tag_level` frame. -/
structure TagLevelRow where
  tag_id : Nat
  date_found : Nat
  customer_name : String
  team_name : String
  problem_type : String
  error_units : Int
  total_units : Int
  orders_with_issue : Int
  error_rate : ℚ
deriving DecidableEq, Repr

/-- The group keys of the `tag_level` groupby.  The key tuple is led by
`tag_id`, which is unique across groups, so the pandas ascending key
sort is a sort on `tag_id`. -/
def tagIdsSorted (rows : List JoinedRow) : List Nat :=
  ((rows.map JoinedRow.tag_id).dedup).insertionSort (· ≤ ·)

/-- The `tag_level` frame: group the joined rows by
`(tag_id, date_found, customer_name, team_name, problem_type)` summing
`error_units`, merge the per-date baseline totals (missing date → 0),
set `orders_with_issue = 1` per tag, and apply the zero-denominator
rate policy. -/
def tag_level (rows : List JoinedRow) (du : List (Nat × Int)) : List TagLevelRow :=
  (tagIdsSorted rows).map fun tid =>
    let grp := rows.filter fun r => decide (r.tag_id = tid)
    let d := (grp.head?.map JoinedRow.date_found).getD 0
    let eu := (grp.map error_units_of).sum
    let tu := lookupTotal du d
    { tag_id := tid
      date_found := d
      customer_name := (grp.head?.map JoinedRow.customer_name).getD ""
      team_name := (grp.head?.map JoinedRow.team_name).getD ""
      problem_type := (grp.head?.map JoinedRow.problem_type).getD ""
      error_units := eu
      total_units := tu
      orders_with_issue := 1
      error_rate := rateOf eu tu }

/-- One row of the `cust_agg` frame. -/
structure CustAggRow where
  customer_name : String
  orders_with_issue : Int
  error_units : Int
  total_units : Int
  error_rate : ℚ
deriving DecidableEq, Repr

/-- Code-point lexicographic strict order on character lists, the order
pandas uses on string group keys. -/
def charsLt : List Char → List Char → Bool
  | [], [] => false
  | [], _ :: _ => true
  | _ :: _, [] => false
  | a :: as, b :: bs => if a < b then true else if b < a then false else charsLt as bs

/-- The ≤ induced by `charsLt` on strings. -/
def strOrder (a b : String) : Prop := charsLt b.data a.data = false

instance : DecidableRel strOrder := fun a b => by unfold strOrder; infer_instance

/-- The group keys of the `cust_agg` groupby, in the ascending key order
pandas emits. -/
def custNamesSorted (tl : List TagLevelRow) : List String :=
  ((tl.map TagLevelRow.customer_name).dedup).insertionSort strOrder

/-- The `cust_agg` frame: group `tag_level` by `customer_name`, SUM the
three measure columns, then recompute `error_rate` from the sums with
the same zero-denominator policy. -/
def cust_agg (tl : List TagLevelRow) : List CustAggRow :=
  (custNamesSorted tl).map fun cn =>
    let grp := tl.filter fun r => decide (r.customer_name = cn)
    let eu := (grp.map TagLevelRow.error_units).sum
    let tu := (grp.map TagLevelRow.total_units).sum
    { customer_name := cn
      orders_with_issue := (grp.map TagLevelRow.orders_with_issue).sum
      error_units := eu
      total_units := tu
      error_rate := rateOf eu tu }

/-- The analytics pipeline of `main` from the two fetches down to
`cust_agg`. -/
def analytics (db : DB) (s e : Nat) (team_filter : Option String)
    (customer_id : Option Nat) : List CustAggRow :=
  cust_agg (tag_level (fetch_problem_tags_and_lines db s e team_filter customer_id)
    (daily_units (fetch_daily_actuals db s e)))

/-- Comparison of nullable line ids; the null row of a line-less tag is
the only row of its block, so only the `some`/`some` case carries
content. -/
def optNatLe : Option Nat → Option Nat → Prop
  | none, _ => True
  | some _, none => True
  | some x, some y => x ≤ y

/-- The row order produced by `ORDER BY t.date_found, t.id, l.id`. -/
def rowOrder (a b : JoinedRow) : Prop :=
  a.date_found < b.date_found ∨
    (a.date_found = b.date_found ∧
      (a.tag_id < b.tag_id ∨ (a.tag_id = b.tag_id ∧ optNatLe a.line_id b.line_id)))

/-- The closed `SIZE_OPTIONS` list of the CONFIG section. -/
def SIZE_OPTIONS : List String :=
  ["2T", "3T", "4T", "5/6T",
   "YXS", "YS", "YM", "YL", "YXL",
   "XS", "S", "M", "L", "XL", "2XL", "3XL",
   "OTHER"]

/-- The closed `SHORT_HEAVY_OPTIONS` list of the CONFIG section. -/
def SHORT_HEAVY_OPTIONS : List String :=
  ["", "Short", "Heavy", "Short/Heavy"]

/-- A header dict with every validated field missing. -/
def hdrAllMissing : SubmitHeader :=
  { date_found := none
    po_number := ""
    customer_id := none
    job_name := ""
    team_name := ""
    author_name := ""
    problem_type := none
    mistake_employee_id := none
    notes := "" }

/-- A customer row used by the concrete instances below. -/
def custAcme : CustomerRow := { id := 1, customer_name := "Acme" }

/-- A store holding exactly one customer and nothing else. -/
def dbOneCustomer : DB :=
  { customers := [custAcme]
    employees := []
    daily_actuals := []
    problem_tags := []
    problem_lines := []
    next_customer_id := 2
    next_employee_id := 1
    next_actual_id := 1
    next_tag_id := 1
    next_line_id := 1
    clock := 7 }

/-- A header dict that passes `validate_submission` against `dbOneCustomer`. -/
def hdrEx : SubmitHeader :=
  { date_found := some 10
    po_number := "N/A"
    customer_id := some 1
    job_name := "Quick Entry"
    team_name := "Receiving"
    author_name := "Receiving Team"
    problem_type := some ("Damaged in Production")
    mistake_employee_id := none
    notes := "" }

/-- The keyword arguments the submission flow passes for `hdrEx`. -/
def pEx : HeaderParams := headerParamsOf hdrEx

/-- A line dict shaped like the quick-entry `lines_payload` of `main`. -/
def lineEx : LineDict :=
  { short_heavy_tag := none
    style_number := some ("N/A")
    item_description := some ("Quick entry (Damaged in Production)")
    color := some ("N/A")
    size := some ("M")
    vendor_packing_slip_matches := none
    qty_short := some 5
    qty_heavy := none }

/-- A line dict violating every per-line rule of the specification:
`style_number` and `color` empty, `item_description` blank after trim,
`size` outside the closed set, `short_heavy_tag` outside its set, and
negative quantities. -/
def badLine : LineDict :=
  { short_heavy_tag := some ("Nonsense")
    style_number := some ""
    item_description := some (" ")
    color := some ""
    size := some ("BOGUS")
    vendor_packing_slip_matches := none
    qty_short := some (-4)
    qty_heavy := some (-1) }

/-- Two problem tags of the same customer on the same date, carrying 3
and 5 error units, with a single baseline entry of 20 units on that
date: the shared-date instance of the aggregate-rate discussion. -/
def dbSharedDate : DB :=
  { customers := [custAcme]
    employees := []
    daily_actuals := [{ id := 1, receiving_date := 10, orders_received := 2,
                        estimated_units := 20, author_name := "rt", notes := none,
                        date_entered := 0, active := 1 }]
    problem_tags :=
      [{ id := 1, date_found := 10, po_number := "N/A", customer_id := 1,
         job_name := "Quick Entry", team_name := "Receiving",
         author_name := "Receiving Team", problem_type := "Damaged in Production",
         mistake_employee_id := none, notes := "", date_entered := 0, active := 1 },
       { id := 2, date_found := 10, po_number := "N/A", customer_id := 1,
         job_name := "Quick Entry", team_name := "Receiving",
         author_name := "Receiving Team", problem_type := "Damaged in Production",
         mistake_employee_id := none, notes := "", date_entered := 0, active := 1 }]
    problem_lines :=
      [{ id := 1, tag_id := 1, short_heavy_tag := none, style_number := "N/A",
         item_description := "q", color := "N/A", size := "M",
         vendor_packing_slip_matches := none, qty_short := some 3, qty_heavy := none },
       { id := 2, tag_id := 2, short_heavy_tag := none, style_number := "N/A",
         item_description := "q", color := "N/A", size := "M",
         vendor_packing_slip_matches := none, qty_short := some 5, qty_heavy := none }]
    next_customer_id := 2
    next_employee_id := 1
    next_actual_id := 2
    next_tag_id := 3
    next_line_id := 3
    clock := 7 }

/-- Two problem tags found on different dates (the tag with the smaller
id was found later), both active and without line rows. -/
def dbTwoDates : DB :=
  { customers := [custAcme]
    employees := []
    daily_actuals := []
    problem_tags :=
      [{ id := 1, date_found := 20, po_number := "N/A", customer_id := 1,
         job_name := "J", team_name := "Receiving", author_name := "A",
         problem_type := "Factory Damage", mistake_employee_id := none, notes := "",
         date_entered := 5, active := 1 },
       { id := 2, date_found := 10, po_number := "N/A", customer_id := 1,
         job_name := "J", team_name := "Receiving", author_name := "A",
         problem_type := "Factory Damage", mistake_employee_id := none, notes := "",
         date_entered := 6, active := 1 }]
    problem_lines := []
    next_customer_id := 2
    next_employee_id := 1
    next_actual_id := 1
    next_tag_id := 3
    next_line_id := 1
    clock := 7 }

/-- A deactivated baseline row (`active = 0`) on date 5 with 4 units. -/
def actZero : ActualRow :=
  { id := 2, receiving_date := 5, orders_received := 1, estimated_units := 4,
    author_name := "b", notes := none, date_entered := 0, active := 0 }

/-- A store with two baseline entries on the same date, one of them
deactivated, and one deactivated problem tag. -/
def dbActives : DB :=
  { customers := [custAcme]
    employees := []
    daily_actuals := [{ id := 1, receiving_date := 5, orders_received := 1,
                        estimated_units := 3, author_name := "a", notes := none,
                        date_entered := 0, active := 1 },
                      actZero]
    problem_tags :=
      [{ id := 1, date_found := 5, po_number := "N/A", customer_id := 1,
         job_name := "J", team_name := "Receiving", author_name := "A",
         problem_type := "Factory Damage", mistake_employee_id := none, notes := "",
         date_entered := 5, active := 0 }]
    problem_lines := []
    next_customer_id := 2
    next_employee_id := 1
    next_actual_id := 3
    next_tag_id := 2
    next_line_id := 1
    clock := 7 }

theorem lookupTotal_nil (d : Nat) : lookupTotal [] d = 0 := by
  simp [lookupTotal]

theorem lookupTotal_addToGroup (acc : List (Nat × Int)) (d : Nat) (v : Int) (d' : Nat) :
    lookupTotal (addToGroup acc d v) d' =
      lookupTotal acc d' + (if d = d' then v else 0) := by
  induction acc with
  | nil =>
    by_cases h : d = d' <;> simp [addToGroup, lookupTotal, h]
  | cons p rest ih =>
    obtain ⟨k, s⟩ := p
    by_cases hkd : k = d
    · subst hkd
      by_cases h : k = d' <;> simp [addToGroup, lookupTotal, h] <;> omega
    · by_cases h : k = d'
      · subst h
        have hdd : ¬ d = k := by omega
        simp [addToGroup, lookupTotal, hkd, hdd]
      · simp only [addToGroup, if_neg hkd]
        simp only [lookupTotal, List.find?] at ih ⊢
        simp [h, ih]

theorem lookupTotal_foldl (l : List ActualRow) :
    ∀ (acc : List (Nat × Int)) (d : Nat),
      lookupTotal (l.foldl (fun acc a => addToGroup acc a.receiving_date a.estimated_units) acc) d
        = lookupTotal acc d +
          ((l.filter fun a => decide (a.receiving_date = d)).map ActualRow.estimated_units).sum := by
  induction l with
  | nil => intro acc d; simp
  | cons a t ih =>
    intro acc d
    simp only [List.foldl_cons]
    rw [ih, lookupTotal_addToGroup]
    by_cases h : a.receiving_date = d <;> simp [List.filter_cons, h] <;> ring

/-- The groupby-sum law: the merged `total_units` of a date is the sum of
`estimated_units` over the input rows carrying that date. -/
theorem lookupTotal_daily_units (actuals : List ActualRow) (d : Nat) :
    lookupTotal (daily_units actuals) d
      = ((actuals.filter fun a => decide (a.receiving_date = d)).map
          ActualRow.estimated_units).sum := by
  have h := lookupTotal_foldl actuals [] d
  simpa [daily_units, lookupTotal_nil] using h

/-- Membership in `fetch_daily_actuals` is exactly range membership in the
base table; `active` plays no role. -/
theorem mem_fetch_daily_actuals (db : DB) (s e : Nat) (a : ActualRow) :
    a ∈ fetch_daily_actuals db s e ↔
      a ∈ db.daily_actuals ∧ s ≤ a.receiving_date ∧ a.receiving_date ≤ e := by
  unfold fetch_daily_actuals
  rw [(List.perm_insertionSort actualOrder _).mem_iff]
  simp [List.mem_filter]

/-- The per-date baseline total computed from a fetched range agrees with
the per-date sum over the whole base table once the date is in range. -/
theorem daily_units_fetch_total (db : DB) (s e d : Nat) (hs : s ≤ d) (he : d ≤ e) :
    lookupTotal (daily_units (fetch_daily_actuals db s e)) d
      = ((db.daily_actuals.filter fun a => decide (a.receiving_date = d)).map
          ActualRow.estimated_units).sum := by
  rw [lookupTotal_daily_units]
  have hperm :
      ((fetch_daily_actuals db s e).filter fun a => decide (a.receiving_date = d)).Perm
        (db.daily_actuals.filter fun a => decide (a.receiving_date = d)) := by
    unfold fetch_daily_actuals
    have h1 := (List.perm_insertionSort actualOrder
      (db.daily_actuals.filter fun a =>
        decide (s ≤ a.receiving_date) && decide (a.receiving_date ≤ e))).filter
      (fun a => decide (a.receiving_date = d))
    rw [List.filter_filter] at h1
    have h2 : (db.daily_actuals.filter fun a =>
        decide (a.receiving_date = d) &&
          (decide (s ≤ a.receiving_date) && decide (a.receiving_date ≤ e)))
        = db.daily_actuals.filter fun a => decide (a.receiving_date = d) := by
      apply List.filter_congr
      intro x hx
      by_cases hxd : x.receiving_date = d
      · simp [hxd, hs, he]
      · simp [hxd]
    rw [h2] at h1
    exact h1
  exact (hperm.map ActualRow.estimated_units).sum_eq

/-- Membership in the analytics join, decomposed into the underlying
header row, the WHERE clause, and the per-header join expansion. -/
theorem mem_fetch_problem_tags (db : DB) (s e : Nat) (tf : Option String) (cid : Option Nat)
    (r : JoinedRow) :
    r ∈ fetch_problem_tags_and_lines db s e tf cid ↔
      ∃ t, t ∈ db.problem_tags ∧ tagKeep s e tf cid t = true ∧ r ∈ rowsForTag db t := by
  unfold fetch_problem_tags_and_lines
  rw [List.mem_flatMap]
  constructor
  · rintro ⟨t, ht, hr⟩
    have hmem := (List.perm_insertionSort tagOrder _).mem_iff.mp ht
    rw [List.mem_filter] at hmem
    exact ⟨t, hmem.1, hmem.2, hr⟩
  · rintro ⟨t, h1, h2, hr⟩
    refine ⟨t, ?_, hr⟩
    rw [(List.perm_insertionSort tagOrder _).mem_iff, List.mem_filter]
    exact ⟨h1, h2⟩

/-- Every joined row carries the fields of its header row, the customer
name of the INNER JOIN and the employee name of the LEFT JOIN. -/
theorem rowsForTag_mem (db : DB) (t : TagRow) (r : JoinedRow)
    (hr : r ∈ rowsForTag db t) :
    r.tag_id = t.id ∧ r.date_found = t.date_found ∧ r.date_entered = t.date_entered ∧
    r.team_name = t.team_name ∧ r.problem_type = t.problem_type ∧
    (∃ c, c ∈ db.customers ∧ c.id = t.customer_id ∧ r.customer_name = c.customer_name) ∧
    r.mistake_made_by = (t.mistake_employee_id.bind fun m =>
      (db.employees.find? fun emp => decide (emp.id = m)).map EmployeeRow.employee_name) := by
  unfold rowsForTag at hr
  cases hfind : db.customers.find? fun c => decide (c.id = t.customer_id) with
  | none => rw [hfind] at hr; simp at hr
  | some c =>
    rw [hfind] at hr
    have hc : c ∈ db.customers := List.mem_of_find?_eq_some hfind
    have hcid : c.id = t.customer_id := by
      have := List.find?_some hfind
      simpa using this
    simp only [] at hr
    by_cases hls : ((db.problem_lines.filter fun l =>
        decide (l.tag_id = t.id)).insertionSort lineOrder).isEmpty
    · rw [if_pos hls] at hr
      simp only [List.mem_singleton] at hr
      subst hr
      exact ⟨rfl, rfl, rfl, rfl, rfl, ⟨c, hc, hcid, rfl⟩, rfl⟩
    · rw [if_neg hls] at hr
      rw [List.mem_map] at hr
      obtain ⟨l, _, hl⟩ := hr
      subst hl
      exact ⟨rfl, rfl, rfl, rfl, rfl, ⟨c, hc, hcid, rfl⟩, rfl⟩

theorem lineRowOf_some (db : DB) (tid : Nat) (ln : LineDict) (row : LineRow)
    (h : lineRowOf db tid ln = some row) :
    row.tag_id = tid ∧ row.id = db.next_line_id := by
  unfold lineRowOf at h
  split at h
  · injection h with h2
    subst h2
    exact ⟨rfl, rfl⟩
  · cases h

theorem insertLine_ok (db : DB) (tid : Nat) (ln : LineDict) (db1 : DB)
    (h : insertLine db tid ln = .ok db1) :
    ∃ row, lineRowOf db tid ln = some row ∧
      db1 = { db with
              problem_lines := db.problem_lines ++ [row],
              next_line_id := db.next_line_id + 1 } := by
  unfold insertLine at h
  split at h
  · cases hrow : lineRowOf db tid ln with
    | none => rw [hrow] at h; cases h
    | some row =>
      rw [hrow] at h
      injection h with h2
      exact ⟨row, rfl, h2.symm⟩
  · cases h

/-- Committing the line loop leaves every other table untouched and
appends exactly one row per dict, each referencing the given tag id. -/
theorem insertLines_ok (tid : Nat) :
    ∀ (ls : List LineDict) (db db2 : DB), insertLines tid db ls = .ok db2 →
      db2.customers = db.customers ∧ db2.employees = db.employees ∧
      db2.daily_actuals = db.daily_actuals ∧ db2.problem_tags = db.problem_tags ∧
      db2.next_tag_id = db.next_tag_id ∧
      ∃ new : List LineRow, db2.problem_lines = db.problem_lines ++ new ∧
        new.length = ls.length ∧ ∀ r ∈ new, r.tag_id = tid := by
  intro ls
  induction ls with
  | nil =>
    intro db db2 h
    unfold insertLines at h
    injection h with h2
    subst h2
    exact ⟨rfl, rfl, rfl, rfl, rfl, [], by simp, rfl, by simp⟩
  | cons ln rest ih =>
    intro db db2 h
    unfold insertLines at h
    cases hil : insertLine db tid ln with
    | error e => rw [hil] at h; cases h
    | ok db1 =>
      rw [hil] at h
      obtain ⟨hc, he, hd, ht, hn, new, hpl, hlen, htag⟩ := ih db1 db2 h
      obtain ⟨row, hrow, hdb1⟩ := insertLine_ok db tid ln db1 hil
      obtain ⟨htid, _⟩ := lineRowOf_some db tid ln row hrow
      subst hdb1
      refine ⟨hc, he, hd, ht, hn, row :: new, ?_, by simp [hlen], ?_⟩
      · rw [hpl]; simp
      · intro r hrmem
        rcases List.mem_cons.mp hrmem with h1 | h2
        · subst h1; exact htid
        · exact htag r h2

theorem insertTag_ok (db : DB) (p : HeaderParams) (db1 : DB) (tid : Nat)
    (h : insertTag db p = .ok (db1, tid)) :
    tid = db.next_tag_id ∧
      db1 = { db with
              problem_tags := db.problem_tags ++ [mkTagRow db p],
              next_tag_id := db.next_tag_id + 1 } := by
  unfold insertTag at h
  split at h
  · injection h with h2
    injection h2 with ha hb
    exact ⟨hb.symm, ha.symm⟩
  · cases h

/-- C1: for every header and non-empty lines list, `save_problem_tag` is
one atomic transaction: on success the returned id is the generated
header id, the header row is appended, and exactly one line row per
input dict is appended, every one referencing that id — so the committed
state never shows the new header without its lines; on any failure the
rollback leaves the state read by readers unchanged. -/
theorem save_problem_tag_atomic (db : DB) (p : HeaderParams) (lines : List LineDict)
    (hfresh : ∀ l ∈ db.problem_lines, l.tag_id ≠ db.next_tag_id)
    (hne : lines ≠ []) :
    (∀ db2 tid, save_problem_tag db p lines = .ok (db2, tid) →
        tid = db.next_tag_id ∧
        db2.problem_tags = db.problem_tags ++ [mkTagRow db p] ∧
        (∃ new : List LineRow, db2.problem_lines = db.problem_lines ++ new ∧
            new.length = lines.length ∧ ∀ r ∈ new, r.tag_id = tid) ∧
        (db2.problem_lines.filter fun l => decide (l.tag_id = tid)).length = lines.length ∧
        (db2.problem_lines.filter fun l => decide (l.tag_id = tid)) ≠ []) ∧
    (∀ err, save_problem_tag db p lines = .error err →
        save_problem_tag_state db p lines = db) := by
  constructor
  · intro db2 tid h
    unfold save_problem_tag at h
    split at h
    · cases h
    · rename_i db1 tid1 hins
      obtain ⟨htid1, hdb1⟩ := insertTag_ok db p db1 tid1 hins
      split at h
      · cases h
      · rename_i db2x hlines
        injection h with h2
        injection h2 with ha hb
        subst ha
        subst hb
        obtain ⟨_, _, _, htags, _, new, hpl, hlen, htag⟩ :=
          insertLines_ok tid1 lines db1 db2x hlines
        subst hdb1
        subst htid1
        refine ⟨rfl, by simpa using htags, ⟨new, by simpa using hpl, hlen, htag⟩, ?_, ?_⟩
        · have hpl2 : db2x.problem_lines = db.problem_lines ++ new := by simpa using hpl
          rw [hpl2, List.filter_append]
          have holdnil : (db.problem_lines.filter fun l =>
              decide (l.tag_id = db.next_tag_id)) = [] := by
            rw [List.filter_eq_nil_iff]
            intro l hl
            simpa using hfresh l hl
          have hnewall : (new.filter fun l => decide (l.tag_id = db.next_tag_id)) = new := by
            rw [List.filter_eq_self]
            intro r hrmem
            simpa using htag r hrmem
          rw [holdnil, hnewall]
          simpa using hlen
        · have hpl2 : db2x.problem_lines = db.problem_lines ++ new := by simpa using hpl
          intro hnil
          rw [hpl2, List.filter_append] at hnil
          have holdnil : (db.problem_lines.filter fun l =>
              decide (l.tag_id = db.next_tag_id)) = [] := by
            rw [List.filter_eq_nil_iff]
            intro l hl
            simpa using hfresh l hl
          have hnewall : (new.filter fun l => decide (l.tag_id = db.next_tag_id)) = new := by
            rw [List.filter_eq_self]
            intro r hrmem
            simpa using htag r hrmem
          rw [holdnil, hnewall] at hnil
          simp only [List.nil_append] at hnil
          have : lines.length = 0 := by rw [← hlen, hnil]; rfl
          exact hne (List.length_eq_zero.mp this)
  · intro err h
    unfold save_problem_tag_state
    rw [h]

/-- Witness for the atomic-save theorem at a concrete store, header and
single-line payload. -/
theorem save_problem_tag_atomic_witness :
    (∀ l ∈ dbOneCustomer.problem_lines, l.tag_id ≠ dbOneCustomer.next_tag_id) ∧
    ([lineEx] ≠ []) ∧
    ((∀ db2 tid, save_problem_tag dbOneCustomer pEx [lineEx] = .ok (db2, tid) →
        tid = dbOneCustomer.next_tag_id ∧
        db2.problem_tags = dbOneCustomer.problem_tags ++ [mkTagRow dbOneCustomer pEx] ∧
        (∃ new : List LineRow, db2.problem_lines = dbOneCustomer.problem_lines ++ new ∧
            new.length = [lineEx].length ∧ ∀ r ∈ new, r.tag_id = tid) ∧
        (db2.problem_lines.filter fun l => decide (l.tag_id = tid)).length = [lineEx].length ∧
        (db2.problem_lines.filter fun l => decide (l.tag_id = tid)) ≠ []) ∧
     (∀ err, save_problem_tag dbOneCustomer pEx [lineEx] = .error err →
        save_problem_tag_state dbOneCustomer pEx [lineEx] = dbOneCustomer)) :=
  ⟨by simp [dbOneCustomer], by simp,
   save_problem_tag_atomic dbOneCustomer pEx [lineEx] (by simp [dbOneCustomer]) (by simp)⟩

/-- C2 counterexample: a valid header submitted with an empty lines list
is NOT rejected: `validate_submission` produces no error (it never
inspects the lines), the transaction commits, and a header row with no
line rows becomes visible — contradicting "fails with a ValidationError
... leaves both the header table and the line table unchanged". -/
theorem submit_empty_lines_counterexample :
    validate_submission hdrEx (some 5) = [] ∧
    submit_problem_tag dbOneCustomer hdrEx (some 5) [] =
      .ok ({ dbOneCustomer with
             problem_tags := [mkTagRow dbOneCustomer pEx],
             next_tag_id := 2 }, 1) ∧
    ([mkTagRow dbOneCustomer pEx] : List TagRow) ≠ dbOneCustomer.problem_tags :=
  ⟨by decide, by rfl, by decide⟩

/-- C2 (amended): `validate_submission` never rejects the lines list —
submitting a header with zero lines passes validation and
`save_problem_tag` commits the header row with no line rows and returns
its id, so a line-less header does become visible; the app never reaches
this case only because its submission path always builds exactly one
line once `total_pieces_with_error > 0` validates. -/
theorem save_problem_tag_empty_lines (db : DB) (p : HeaderParams)
    (hfk : fkOkHeader db p = true) :
    save_problem_tag db p [] =
      .ok ({ db with
             problem_tags := db.problem_tags ++ [mkTagRow db p],
             next_tag_id := db.next_tag_id + 1 }, db.next_tag_id) := by
  simp [save_problem_tag, insertTag, insertLines, hfk]

/-- Witness for the empty-lines save at a concrete store and header. -/
theorem save_problem_tag_empty_lines_witness :
    fkOkHeader dbOneCustomer pEx = true ∧
    save_problem_tag dbOneCustomer pEx [] =
      .ok ({ dbOneCustomer with
             problem_tags := dbOneCustomer.problem_tags ++ [mkTagRow dbOneCustomer pEx],
             next_tag_id := dbOneCustomer.next_tag_id + 1 }, dbOneCustomer.next_tag_id) :=
  ⟨by decide, save_problem_tag_empty_lines dbOneCustomer pEx (by decide)⟩

/-- C3 counterexample: a line violating every per-line rule of the claim
(empty `style_number` and `color`, blank `item_description`, `size`
outside the closed set, `short_heavy_tag` outside its set, negative
quantities) passes validation and is persisted: the submission succeeds,
so validation rejected nothing about the line. -/
theorem line_validation_missing_counterexample :
    badLine.style_number = some "" ∧
    badLine.color = some "" ∧
    badLine.item_description = some (" ") ∧ pyStrip (" ") = "" ∧
    badLine.size = some ("BOGUS") ∧ ("BOGUS" ∈ SIZE_OPTIONS) = False ∧
    badLine.short_heavy_tag = some ("Nonsense") ∧ ("Nonsense" ∈ SHORT_HEAVY_OPTIONS) = False ∧
    badLine.qty_short = some (-4) ∧ ((-4 : Int) < 0) = True ∧
    validate_submission hdrEx (some 5) = [] ∧
    (submit_problem_tag dbOneCustomer hdrEx (some 5) [badLine]).isOk = true := by
  decide

/-- C3 (amended): `validate_submission` collects its error messages and
returns them together — each failed check contributes its message
independently of the others, and whenever the list is non-empty the
submission flow raises before any write — but the only checks performed
are on `date_found`, `customer_id`, `problem_type` and
`total_pieces_with_error`; no line field is validated. -/
theorem validate_submission_collects_header_checks (h : SubmitHeader) (total : Option Int) :
    (("Date Found is required." ∈ validate_submission h total) ↔ h.date_found = none) ∧
    (("Customer is required." ∈ validate_submission h total) ↔
      (h.customer_id = none ∨ h.customer_id = some 0)) ∧
    (("Problem Type is required." ∈ validate_submission h total) ↔
      (h.problem_type = none ∨ h.problem_type = some "")) ∧
    (("Total pieces with this problem must be greater than 0." ∈
        validate_submission h total) ↔
      (total = none ∨ ∃ t, total = some t ∧ t ≤ 0)) ∧
    (∀ (db : DB) (lines : List LineDict), validate_submission h total ≠ [] →
      submit_problem_tag db h total lines =
        .error (.validation (validate_submission h total))) := by
  refine ⟨?_, ?_, ?_, ?_, ?_⟩
  · rcases hdf : h.date_found with _ | d <;>
      rcases hci : h.customer_id with _ | n <;>
      rcases hpt : h.problem_type with _ | s <;>
      rcases ht : total with _ | t <;>
      simp [validate_submission, truthyNat, truthyStr, hdf, hci, hpt, ht] <;>
      split <;> simp
  · rcases hdf : h.date_found with _ | d <;>
      rcases hci : h.customer_id with _ | n <;>
      rcases hpt : h.problem_type with _ | s <;>
      rcases ht : total with _ | t <;>
      simp [validate_submission, truthyNat, truthyStr, hdf, hci, hpt, ht] <;>
      split <;> simp
  · rcases hdf : h.date_found with _ | d <;>
      rcases hci : h.customer_id with _ | n <;>
      rcases hpt : h.problem_type with _ | s <;>
      rcases ht : total with _ | t <;>
      simp [validate_submission, truthyNat, truthyStr, hdf, hci, hpt, ht] <;>
      split <;> simp
  · rcases hdf : h.date_found with _ | d <;>
      rcases hci : h.customer_id with _ | n <;>
      rcases hpt : h.problem_type with _ | s <;>
      rcases ht : total with _ | t <;>
      simp [validate_submission, truthyNat, truthyStr, hdf, hci, hpt, ht] <;>
      split <;> simp
  · intro db lines hne
    unfold submit_problem_tag
    rw [if_neg]
    intro hemp
    exact hne (List.isEmpty_iff.mp hemp)

/-- Witness for the validation-characterization theorem: with every
checked field missing, all four messages are present at once and the
submission flow raises instead of writing. -/
theorem validate_submission_collects_witness :
    ("Date Found is required." ∈ validate_submission hdrAllMissing none) ∧
    ("Customer is required." ∈ validate_submission hdrAllMissing none) ∧
    ("Problem Type is required." ∈ validate_submission hdrAllMissing none) ∧
    ("Total pieces with this problem must be greater than 0." ∈
      validate_submission hdrAllMissing none) ∧
    submit_problem_tag dbOneCustomer hdrAllMissing none [] =
      .error (.validation (validate_submission hdrAllMissing none)) :=
  ⟨(validate_submission_collects_header_checks hdrAllMissing none).1.mpr rfl,
   (validate_submission_collects_header_checks hdrAllMissing none).2.1.mpr (Or.inl rfl),
   (validate_submission_collects_header_checks hdrAllMissing none).2.2.1.mpr (Or.inl rfl),
   (validate_submission_collects_header_checks hdrAllMissing none).2.2.2.1.mpr (Or.inl rfl),
   (validate_submission_collects_header_checks hdrAllMissing none).2.2.2.2 dbOneCustomer []
     (by decide)⟩

/-- Every `tag_level` row carries the summed error units of its tag, the
merged baseline total of its date, `orders_with_issue = 1` and the
policy rate. -/
theorem tag_level_mem (rows : List JoinedRow) (du : List (Nat × Int)) (r : TagLevelRow)
    (hr : r ∈ tag_level rows du) :
    r.error_units
        = ((rows.filter fun x => decide (x.tag_id = r.tag_id)).map error_units_of).sum ∧
    r.total_units = lookupTotal du r.date_found ∧
    r.orders_with_issue = 1 ∧
    r.error_rate = rateOf r.error_units r.total_units := by
  unfold tag_level at hr
  rw [List.mem_map] at hr
  obtain ⟨tid, _, hrr⟩ := hr
  subst hrr
  exact ⟨rfl, rfl, rfl, rfl⟩

/-- Every `cust_agg` row is the sum of the tag-level rows of its group in all
three measures, with the rate recomputed from the sums. -/
theorem cust_agg_mem (tl : List TagLevelRow) (g : CustAggRow) (hg : g ∈ cust_agg tl) :
    g.orders_with_issue
        = ((tl.filter fun r => decide (r.customer_name = g.customer_name)).map
            TagLevelRow.orders_with_issue).sum ∧
    g.error_units
        = ((tl.filter fun r => decide (r.customer_name = g.customer_name)).map
            TagLevelRow.error_units).sum ∧
    g.total_units
        = ((tl.filter fun r => decide (r.customer_name = g.customer_name)).map
            TagLevelRow.total_units).sum ∧
    g.error_rate = rateOf g.error_units g.total_units := by
  unfold cust_agg at hg
  rw [List.mem_map] at hg
  obtain ⟨cn, _, hgg⟩ := hg
  subst hgg
  exact ⟨rfl, rfl, rfl, rfl⟩

/-- C4: the per-date `total_units` equals the sum of `estimated_units`
over the baseline entries of that calendar date (for an in-range date,
equivalently over the whole table; a date with no baseline entry gets
0), and every tag-level or group row with `total_units = 0` has
`error_rate = 0`, independent of its `error_units` — by policy, not by
division. -/
theorem aggregation_baseline_and_zero_rate :
    (∀ (actuals : List ActualRow) (d : Nat),
        lookupTotal (daily_units actuals) d
          = ((actuals.filter fun a => decide (a.receiving_date = d)).map
              ActualRow.estimated_units).sum) ∧
    (∀ (db : DB) (s e d : Nat), s ≤ d → d ≤ e →
        lookupTotal (daily_units (fetch_daily_actuals db s e)) d
          = ((db.daily_actuals.filter fun a => decide (a.receiving_date = d)).map
              ActualRow.estimated_units).sum) ∧
    (∀ (rows : List JoinedRow) (du : List (Nat × Int)), ∀ r ∈ tag_level rows du,
        r.total_units = lookupTotal du r.date_found ∧
        (r.total_units = 0 → r.error_rate = 0)) ∧
    (∀ (tl : List TagLevelRow), ∀ g ∈ cust_agg tl,
        g.total_units = 0 → g.error_rate = 0) := by
  refine ⟨lookupTotal_daily_units, daily_units_fetch_total, ?_, ?_⟩
  · intro rows du r hr
    obtain ⟨_, htu, _, hrate⟩ := tag_level_mem rows du r hr
    refine ⟨htu, ?_⟩
    intro h0
    rw [hrate, h0]
    simp [rateOf]
  · intro tl g hg h0
    obtain ⟨_, _, _, hrate⟩ := cust_agg_mem tl g hg
    rw [hrate, h0]
    simp [rateOf]

/-- Witness for the baseline/zero-rate theorem: on a store whose two
baseline rows on date 5 carry 3 and 4 units (one of them deactivated),
the merged total for date 5 is 7. -/
theorem aggregation_baseline_witness :
    lookupTotal (daily_units (fetch_daily_actuals dbActives 0 9)) 5
      = ((dbActives.daily_actuals.filter fun a => decide (a.receiving_date = 5)).map
          ActualRow.estimated_units).sum ∧
    lookupTotal (daily_units (fetch_daily_actuals dbActives 0 9)) 5 = 7 :=
  ⟨aggregation_baseline_and_zero_rate.2.1 dbActives 0 9 5 (by decide) (by decide),
   by decide⟩

/-- C5 counterexample: on the very instance named by the claim — two tags of one
customer carrying 3 and 5 error units on one shared date whose baseline
total is 20 — the code sums `total_units` once per tag row, so the
group denominator is 40 and the group `error_rate` is 8/40 = 0.2, not
the claimed 8/20 = 0.4. -/
theorem group_rate_shared_date_counterexample :
    ((analytics dbSharedDate 0 100 none none).map fun g => (g.error_units, g.total_units))
      = [(8, 40)] ∧
    (analytics dbSharedDate 0 100 none none).map CustAggRow.error_rate = [rateOf 8 40] ∧
    rateOf 8 40 = 1/5 ∧ ((1 : ℚ)/5 ≠ 2/5) ∧ ((8 : ℚ)/20 = 2/5) := by
  refine ⟨by decide, by rfl, by norm_num [rateOf], by norm_num, by norm_num⟩

/-- C5 (amended): group aggregation sums `orders_with_issue`,
`error_units` and `total_units` over the tag-level rows of the group first
and then recomputes `error_rate = Σerror_units / Σtotal_units` — the
aggregate form, not the mean of per-tag rates; because each tag-level
row carries the `total_units` of its own date, two tags of one group sharing
a date whose baseline total is 20, with error units 3 and 5, yield
Σtotal_units = 40 and group `error_rate = 8/40 = 0.2`. -/
theorem cust_agg_aggregate_rate :
    (∀ (tl : List TagLevelRow), ∀ g ∈ cust_agg tl,
        g.orders_with_issue
            = ((tl.filter fun r => decide (r.customer_name = g.customer_name)).map
                TagLevelRow.orders_with_issue).sum ∧
        g.error_units
            = ((tl.filter fun r => decide (r.customer_name = g.customer_name)).map
                TagLevelRow.error_units).sum ∧
        g.total_units
            = ((tl.filter fun r => decide (r.customer_name = g.customer_name)).map
                TagLevelRow.total_units).sum ∧
        (0 < g.total_units → g.error_rate = (g.error_units : ℚ) / (g.total_units : ℚ))) ∧
    ((analytics dbSharedDate 0 100 none none).map fun g =>
        (g.customer_name, g.orders_with_issue, g.error_units, g.total_units))
      = [("Acme", 2, 8, 40)] ∧
    (analytics dbSharedDate 0 100 none none).map CustAggRow.error_rate = [rateOf 8 40] ∧
    rateOf 8 40 = 1/5 := by
  refine ⟨?_, by decide, by rfl, by norm_num [rateOf]⟩
  intro tl g hg
  obtain ⟨h1, h2, h3, hrate⟩ := cust_agg_mem tl g hg
  refine ⟨h1, h2, h3, ?_⟩
  intro hpos
  rw [hrate]
  unfold rateOf
  rw [if_pos hpos]

/-- Witness for the aggregate-rate theorem on the shared-date store: the
single "Acme" group row has a positive denominator and its rate is the
quotient of the summed measures, 8/40. -/
theorem cust_agg_aggregate_rate_witness :
    (analytics dbSharedDate 0 100 none none).map CustAggRow.error_rate = [(8 : ℚ)/40] := by
  have h : analytics dbSharedDate 0 100 none none = [⟨"Acme", 2, 8, 40, rateOf 8 40⟩] := rfl
  have hmem : (⟨"Acme", 2, 8, 40, rateOf 8 40⟩ : CustAggRow) ∈
      analytics dbSharedDate 0 100 none none := by
    rw [h]
    exact List.mem_singleton_self _
  have hr := (cust_agg_aggregate_rate.1
      (tag_level (fetch_problem_tags_and_lines dbSharedDate 0 100 none none)
        (daily_units (fetch_daily_actuals dbSharedDate 0 100)))
      _ hmem).2.2.2 (by norm_num)
  rw [h, List.map_cons, List.map_nil]
  have h2 : (⟨"Acme", 2, 8, 40, rateOf 8 40⟩ : CustAggRow).error_rate = rateOf 8 40 := rfl
  rw [h2] at hr ⊢
  rw [hr]
  norm_num

/-- Under a unique-name table, the rows carrying a present name number
exactly one. -/
theorem filter_name_length_one {α : Type} (f : α → String) (n : String) :
    ∀ (l : List α), (l.map f).Nodup → (∃ x, x ∈ l ∧ f x = n) →
      (l.filter fun y => decide (f y = n)).length = 1 := by
  intro l
  induction l with
  | nil => rintro _ ⟨x, hx, _⟩; cases hx
  | cons a t ih =>
    rintro hd ⟨x, hx, hfx⟩
    rw [List.map_cons, List.nodup_cons] at hd
    obtain ⟨hna, hnd⟩ := hd
    rcases List.mem_cons.mp hx with rfl | hxt
    · have hfilter : (t.filter fun y => decide (f y = n)) = [] := by
        rw [List.filter_eq_nil_iff]
        intro b hb
        simp only [decide_eq_true_eq]
        intro hfb
        exact hna (by rw [hfx, ← hfb]; exact List.mem_map_of_mem f hb)
      simp [List.filter_cons, hfx, hfilter]
    · by_cases hfa : f a = n
      · exfalso
        exact hna (by rw [hfa, ← hfx]; exact List.mem_map_of_mem f hxt)
      · simp only [List.filter_cons, decide_eq_true_eq]
        rw [if_neg hfa]
        exact ih hnd ⟨x, hxt, hfx⟩

/-- The customer upsert: with a non-empty stripped name, the first call
returns an id, the second call against the resulting store returns the
same id and changes nothing, and exactly one row carries the name. -/
theorem add_customer_spec (db : DB) (name : String)
    (hcu : (db.customers.map CustomerRow.customer_name).Nodup)
    (hne : pyStrip name ≠ "") :
    ∃ db1 id1, add_customer_if_needed db name = .ok (db1, id1) ∧
      add_customer_if_needed db1 name = .ok (db1, id1) ∧
      (db1.customers.filter fun c => decide (c.customer_name = pyStrip name)).length = 1 := by
  unfold add_customer_if_needed
  rw [if_neg hne]
  cases hfind : db.customers.find? fun c => decide (c.customer_name = pyStrip name) with
  | some c =>
    refine ⟨db, c.id, rfl, by rw [if_neg hne, hfind], ?_⟩
    refine filter_name_length_one CustomerRow.customer_name (pyStrip name) db.customers hcu
      ⟨c, List.mem_of_find?_eq_some hfind, ?_⟩
    have := List.find?_some hfind
    simpa using this
  | none =>
    refine ⟨_, db.next_customer_id, rfl, ?_, ?_⟩
    · rw [if_neg hne]
      simp only [List.find?_append, hfind, Option.none_or]
      have hfind2 : List.find? (fun c => decide (c.customer_name = pyStrip name))
          [(⟨db.next_customer_id, pyStrip name⟩ : CustomerRow)]
        = some (⟨db.next_customer_id, pyStrip name⟩ : CustomerRow) := by
        simp [List.find?]
      rw [hfind2]
    · simp only [List.filter_append]
      rw [List.filter_eq_nil_iff.mpr (by
        intro a ha
        have := List.find?_eq_none.mp hfind a ha
        simpa using this)]
      simp

/-- The employee upsert: same contract as the customer upsert. -/
theorem add_employee_spec (db : DB) (name : String)
    (heu : (db.employees.map EmployeeRow.employee_name).Nodup)
    (hne : pyStrip name ≠ "") :
    ∃ db1 id1, add_employee db name = .ok (db1, id1) ∧
      add_employee db1 name = .ok (db1, id1) ∧
      (db1.employees.filter fun c => decide (c.employee_name = pyStrip name)).length = 1 := by
  unfold add_employee
  rw [if_neg hne]
  cases hfind : db.employees.find? fun c => decide (c.employee_name = pyStrip name) with
  | some c =>
    refine ⟨db, c.id, rfl, by rw [if_neg hne, hfind], ?_⟩
    refine filter_name_length_one EmployeeRow.employee_name (pyStrip name) db.employees heu
      ⟨c, List.mem_of_find?_eq_some hfind, ?_⟩
    have := List.find?_some hfind
    simpa using this
  | none =>
    refine ⟨_, db.next_employee_id, rfl, ?_, ?_⟩
    · rw [if_neg hne]
      simp only [List.find?_append, hfind, Option.none_or]
      have hfind2 : List.find? (fun c => decide (c.employee_name = pyStrip name))
          [(⟨db.next_employee_id, pyStrip name⟩ : EmployeeRow)]
        = some (⟨db.next_employee_id, pyStrip name⟩ : EmployeeRow) := by
        simp [List.find?]
      rw [hfind2]
    · simp only [List.filter_append]
      rw [List.filter_eq_nil_iff.mpr (by
        intro a ha
        have := List.find?_eq_none.mp hfind a ha
        simpa using this)]
      simp

/-- C7: both registries trim the name and fail without writing when it
is empty after trimming; otherwise two calls with the same name return
the same id (the second one changing nothing), and exactly one row with
that name exists afterward. -/
theorem get_or_create_idempotent (db : DB) (name : String)
    (hcu : (db.customers.map CustomerRow.customer_name).Nodup)
    (heu : (db.employees.map EmployeeRow.employee_name).Nodup) :
    (pyStrip name = "" →
        add_customer_if_needed db name = .error ("Customer name cannot be empty.") ∧
        add_employee db name = .error ("Employee name cannot be empty.")) ∧
    (pyStrip name ≠ "" →
        (∃ db1 id1, add_customer_if_needed db name = .ok (db1, id1) ∧
          add_customer_if_needed db1 name = .ok (db1, id1) ∧
          (db1.customers.filter fun c =>
            decide (c.customer_name = pyStrip name)).length = 1) ∧
        (∃ db2 id2, add_employee db name = .ok (db2, id2) ∧
          add_employee db2 name = .ok (db2, id2) ∧
          (db2.employees.filter fun c =>
            decide (c.employee_name = pyStrip name)).length = 1)) := by
  constructor
  · intro hempty
    constructor
    · unfold add_customer_if_needed
      rw [if_pos hempty]
    · unfold add_employee
      rw [if_pos hempty]
  · intro hne
    exact ⟨add_customer_spec db name hcu hne, add_employee_spec db name heu hne⟩

/-- Witness for the registry theorem: calling for " Acme " (stripping to
the existing name) against the one-customer store. -/
theorem get_or_create_idempotent_witness :
    (pyStrip (" Acme ") = "" →
        add_customer_if_needed dbOneCustomer (" Acme ")
          = .error ("Customer name cannot be empty.") ∧
        add_employee dbOneCustomer (" Acme ")
          = .error ("Employee name cannot be empty.")) ∧
    (pyStrip (" Acme ") ≠ "" →
        (∃ db1 id1, add_customer_if_needed dbOneCustomer (" Acme ") = .ok (db1, id1) ∧
          add_customer_if_needed db1 (" Acme ") = .ok (db1, id1) ∧
          (db1.customers.filter fun c =>
            decide (c.customer_name = pyStrip (" Acme "))).length = 1) ∧
        (∃ db2 id2, add_employee dbOneCustomer (" Acme ") = .ok (db2, id2) ∧
          add_employee db2 (" Acme ") = .ok (db2, id2) ∧
          (db2.employees.filter fun c =>
            decide (c.employee_name = pyStrip (" Acme "))).length = 1)) :=
  get_or_create_idempotent dbOneCustomer (" Acme ") (by decide) (by decide)

/-- C9: whenever `total_pieces_with_error` is absent or not strictly
positive, `validate_submission` returns a non-empty error list, whatever
the header holds — a report claiming zero defective pieces can never be
submitted. -/
theorem validate_rejects_nonpositive_total (h : SubmitHeader) (total : Option Int)
    (htot : total = none ∨ ∃ t, total = some t ∧ t ≤ 0) :
    validate_submission h total ≠ [] := by
  intro hc
  unfold validate_submission at hc
  rcases htot with rfl | ⟨t, rfl, ht⟩
  · simp [List.append_eq_nil] at hc
  · simp [List.append_eq_nil, ht] at hc

/-- Witness for the positive-total theorem: a fully populated header
with a zero piece count is still rejected. -/
theorem validate_rejects_nonpositive_total_witness :
    ((some (0 : Int) = none) ∨ ∃ t, some (0 : Int) = some t ∧ t ≤ 0) ∧
    validate_submission hdrEx (some 0) ≠ [] :=
  ⟨Or.inr ⟨0, rfl, le_refl 0⟩,
   validate_rejects_nonpositive_total hdrEx (some 0) (Or.inr ⟨0, rfl, le_refl 0⟩)⟩

/-- C10: the two read paths treat `active` asymmetrically: every row of
the analytics join stems from a header with `active = 1`, while
`fetch_daily_actuals` returns exactly the in-range baseline rows with no
condition on `active`, so a deactivated baseline row still feeds the
per-date `total_units` denominator. -/
theorem active_flag_asymmetry (db : DB) (s e : Nat) (tf : Option String)
    (cid : Option Nat) :
    (∀ r ∈ fetch_problem_tags_and_lines db s e tf cid,
        ∃ t, t ∈ db.problem_tags ∧ r.tag_id = t.id ∧ t.active = 1 ∧
          s ≤ t.date_found ∧ t.date_found ≤ e) ∧
    (∀ a ∈ db.daily_actuals, s ≤ a.receiving_date → a.receiving_date ≤ e →
        a ∈ fetch_daily_actuals db s e) ∧
    (∀ a ∈ fetch_daily_actuals db s e,
        a ∈ db.daily_actuals ∧ s ≤ a.receiving_date ∧ a.receiving_date ≤ e) ∧
    (∀ d, s ≤ d → d ≤ e →
        lookupTotal (daily_units (fetch_daily_actuals db s e)) d
          = ((db.daily_actuals.filter fun a => decide (a.receiving_date = d)).map
              ActualRow.estimated_units).sum) := by
  refine ⟨?_, ?_, ?_, ?_⟩
  · intro r hr
    obtain ⟨t, ht, hkeep, hrow⟩ := (mem_fetch_problem_tags db s e tf cid r).mp hr
    obtain ⟨htag, -⟩ := rowsForTag_mem db t r hrow
    unfold tagKeep at hkeep
    simp only [Bool.and_eq_true, decide_eq_true_eq] at hkeep
    obtain ⟨⟨⟨⟨h1, h2⟩, h3⟩, -⟩, -⟩ := hkeep
    exact ⟨t, ht, htag, h3, h1, h2⟩
  · intro a ha h1 h2
    exact (mem_fetch_daily_actuals db s e a).mpr ⟨ha, h1, h2⟩
  · intro a ha
    exact (mem_fetch_daily_actuals db s e a).mp ha
  · intro d h1 h2
    exact daily_units_fetch_total db s e d h1 h2

/-- Witness for the active-flag theorem: the deactivated baseline row of
`dbActives` is still returned by the range fetch. -/
theorem active_flag_asymmetry_witness :
    actZero.active = 0 ∧ actZero ∈ fetch_daily_actuals dbActives 0 9 :=
  ⟨by decide,
   (active_flag_asymmetry dbActives 0 9 none none).2.1 actZero (by decide) (by decide)
     (by decide)⟩

/-- Each per-header block of the join is internally ordered: its rows
share the date and id of the header, and their line ids ascend. -/
theorem rowsForTag_pairwise (db : DB) (t : TagRow) :
    List.Pairwise rowOrder (rowsForTag db t) := by
  unfold rowsForTag
  cases hfind : db.customers.find? fun c => decide (c.id = t.customer_id) with
  | none => simp
  | some c =>
    simp only []
    by_cases h : ((db.problem_lines.filter fun l =>
        decide (l.tag_id = t.id)).insertionSort lineOrder).isEmpty
    · rw [if_pos h]
      exact List.pairwise_singleton _ _
    · rw [if_neg h]
      haveI : IsTotal LineRow lineOrder := ⟨by intro a b; unfold lineOrder; omega⟩
      haveI : IsTrans LineRow lineOrder := ⟨by intro a b x hab hbx; unfold lineOrder at *; omega⟩
      have hsorted : List.Pairwise lineOrder
          ((db.problem_lines.filter fun l => decide (l.tag_id = t.id)).insertionSort
            lineOrder) :=
        List.sorted_insertionSort lineOrder _
      rw [List.pairwise_map]
      refine hsorted.imp ?_
      intro a b hab
      unfold lineOrder at hab
      exact Or.inr ⟨rfl, Or.inr ⟨rfl, hab⟩⟩

/-- The join output is ordered by `(date_found, tag_id, line_id)`:
blocks follow the header sort, distinct headers never interleave, and
lines ascend inside a block. -/
theorem fetch_sorted (db : DB) (s e : Nat) (tf : Option String) (cid : Option Nat)
    (hids : (db.problem_tags.map TagRow.id).Nodup) :
    List.Pairwise rowOrder (fetch_problem_tags_and_lines db s e tf cid) := by
  unfold fetch_problem_tags_and_lines
  rw [List.flatMap_def, List.pairwise_flatten]
  constructor
  · intro l hl
    rw [List.mem_map] at hl
    obtain ⟨t, -, hlt⟩ := hl
    subst hlt
    exact rowsForTag_pairwise db t
  · rw [List.pairwise_map]
    haveI : IsTotal TagRow tagOrder := ⟨by intro a b; unfold tagOrder; omega⟩
    haveI : IsTrans TagRow tagOrder := ⟨by intro a b x hab hbx; unfold tagOrder at *; omega⟩
    have hsorted : List.Pairwise tagOrder
        ((db.problem_tags.filter (tagKeep s e tf cid)).insertionSort tagOrder) :=
      List.sorted_insertionSort tagOrder _
    have hnodup : ((db.problem_tags.filter (tagKeep s e tf cid)).insertionSort
        tagOrder).Pairwise (fun t1 t2 => t1.id ≠ t2.id) := by
      have hsub : ((db.problem_tags.filter (tagKeep s e tf cid)).map TagRow.id).Sublist
          (db.problem_tags.map TagRow.id) :=
        List.Sublist.map TagRow.id (List.filter_sublist _)
      have hnd1 : ((db.problem_tags.filter (tagKeep s e tf cid)).map TagRow.id).Nodup :=
        List.Nodup.sublist hsub hids
      have hnd2 : (((db.problem_tags.filter (tagKeep s e tf cid)).insertionSort
          tagOrder).map TagRow.id).Nodup := by
        rw [((List.perm_insertionSort tagOrder _).map TagRow.id).nodup_iff]
        exact hnd1
      exact List.pairwise_map.mp hnd2
    refine (hsorted.and hnodup).imp ?_
    rintro t1 t2 ⟨hord, hne⟩ x hx y hy
    obtain ⟨hx1, hx2, -⟩ := rowsForTag_mem db t1 x hx
    obtain ⟨hy1, hy2, -⟩ := rowsForTag_mem db t2 y hy
    unfold tagOrder at hord
    unfold rowOrder
    rw [hx1, hx2, hy1, hy2]
    omega

/-- C8 counterexample: with two reports found on dates 10 and 20, the
fetch returns the date-10 report first — the output is ordered oldest
first by `date_found` (then `t.id`, then `l.id`), not most recent first,
and `date_entered` is not a sort key. -/
theorem fetch_headers_order_counterexample :
    (fetch_problem_tags_and_lines dbTwoDates 0 100 none none).map JoinedRow.date_found
      = [10, 20] ∧
    ¬ List.Pairwise (fun a b : JoinedRow => b.date_found ≤ a.date_found)
        (fetch_problem_tags_and_lines dbTwoDates 0 100 none none) := by
  constructor
  · decide
  · decide

/-- C8 (amended): the join output is ordered ascending by
`(date_found, tag_id, line_id)` — oldest first, with the header id and
line id as tie-breaks, `date_entered` playing no part — and every row
carries the resolved customer name (INNER JOIN) and mistake-made-by
employee name (LEFT JOIN, `none` when unset or unresolved). -/
theorem fetch_headers_order_and_names (db : DB) (s e : Nat) (tf : Option String)
    (cid : Option Nat) (hids : (db.problem_tags.map TagRow.id).Nodup) :
    List.Pairwise rowOrder (fetch_problem_tags_and_lines db s e tf cid) ∧
    (∀ r ∈ fetch_problem_tags_and_lines db s e tf cid,
        ∃ t, t ∈ db.problem_tags ∧ r.tag_id = t.id ∧ r.date_found = t.date_found ∧
          r.date_entered = t.date_entered ∧
          (∃ c, c ∈ db.customers ∧ c.id = t.customer_id ∧
            r.customer_name = c.customer_name) ∧
          r.mistake_made_by = (t.mistake_employee_id.bind fun m =>
            (db.employees.find? fun emp => decide (emp.id = m)).map
              EmployeeRow.employee_name)) := by
  constructor
  · exact fetch_sorted db s e tf cid hids
  · intro r hr
    obtain ⟨t, ht, -, hrow⟩ := (mem_fetch_problem_tags db s e tf cid r).mp hr
    obtain ⟨h1, h2, h3, -, -, hc, hm⟩ := rowsForTag_mem db t r hrow
    exact ⟨t, ht, h1, h2, h3, hc, hm⟩

/-- Witness for the order-and-names theorem on the two-date store. -/
theorem fetch_headers_order_and_names_witness :
    List.Pairwise rowOrder (fetch_problem_tags_and_lines dbTwoDates 0 100 none none) ∧
    (∀ r ∈ fetch_problem_tags_and_lines dbTwoDates 0 100 none none,
        ∃ t, t ∈ dbTwoDates.problem_tags ∧ r.tag_id = t.id ∧ r.date_found = t.date_found ∧
          r.date_entered = t.date_entered ∧
          (∃ c, c ∈ dbTwoDates.customers ∧ c.id = t.customer_id ∧
            r.customer_name = c.customer_name) ∧
          r.mistake_made_by = (t.mistake_employee_id.bind fun m =>
            (dbTwoDates.employees.find? fun emp => decide (emp.id = m)).map
              EmployeeRow.employee_name)) :=
  fetch_headers_order_and_names dbTwoDates 0 100 none none (by decide)
